import Mathlib

/-
Verification of the CactAI usage-accounting and environmental-impact ledger.

The definitions below are a shallow embedding, in exact rational arithmetic,
of the TypeScript and SQL sources of the repository:
  - src/lib/config (MODEL_CONFIG, IMPACT_CONFIG)
  - src/lib/openai.ts (calculateTokenCost)
  - src/lib/impact.ts (calculateImpact, MILESTONES, checkMilestone)
  - src/app/api/chat/route.ts (estimateTokens, validateRequest,
    saveQueryToDatabase, updateUserProfile, POST)
  - src/lib/database.ts (DatabaseClient.recordQuery, checkUserMilestones)
  - the database schema SQL (update_user_stats trigger, check_milestones)
  - src/components/chat/ChatInterface.tsx (refreshTreeCount and the
    optimistic tree-count update in handleSend)
JavaScript numbers are modelled as rationals and Number.prototype.toFixed
as exact decimal rounding; all quantities appearing in the claims are
non-negative and far from binary/decimal tie anomalies.
-/

namespace Cactai

/-- JavaScript strings are modelled as lists of characters, so that every
string operation the embedded code performs (length, trim, split) is a
structurally recursive, kernel-computable function. -/
abbrev Str := List Char

/-- Model of x.toFixed(d) followed by parseFloat, on exact rationals:
round to d decimal places, halves away from zero (all quantities handled
by the claims are non-negative, where this is floor(x * 10^d + 1/2) / 10^d). -/
def toFixedQ (d : ℕ) (x : ℚ) : ℚ :=
  ((Int.floor (x * 10 ^ d + 1 / 2) : ℤ) : ℚ) / 10 ^ d

/-- The three supported models of MODEL_CONFIG in src/lib/config. -/
inductive ModelName
  | gpt4oMini
  | gpt4o
  | gpt4
deriving DecidableEq, Repr

/-- One entry of MODEL_CONFIG: per-1K-token rates and context window. -/
structure ModelPricing where
  inputCostPer1K : ℚ
  outputCostPer1K : ℚ
  contextWindow : ℕ
deriving DecidableEq, Repr

/-- MODEL_CONFIG from src/lib/config: 0.00015/0.0006 for gpt-4o-mini,
0.0025/0.01 for gpt-4o, 0.03/0.06 for gpt-4. -/
def MODEL_CONFIG : ModelName → ModelPricing
  | ModelName.gpt4oMini => { inputCostPer1K := 15 / 100000, outputCostPer1K := 6 / 10000, contextWindow := 128000 }
  | ModelName.gpt4o => { inputCostPer1K := 25 / 10000, outputCostPer1K := 1 / 100, contextWindow := 128000 }
  | ModelName.gpt4 => { inputCostPer1K := 3 / 100, outputCostPer1K := 6 / 100, contextWindow := 8192 }

/-- IMPACT_CONFIG from src/lib/config: DONATION_RATE = 0.4,
TREES_PER_POUND = 2.5. -/
structure ImpactConfig where
  DONATION_RATE : ℚ
  TREES_PER_POUND : ℚ
deriving DecidableEq, Repr

def IMPACT_CONFIG : ImpactConfig :=
  { DONATION_RATE := 4 / 10, TREES_PER_POUND := 25 / 10 }

/-- Return value of calculateTokenCost in src/lib/openai.ts. -/
structure TokenCost where
  inputCost : ℚ
  outputCost : ℚ
  totalCost : ℚ
deriving DecidableEq, Repr

/-- calculateTokenCost from src/lib/openai.ts: raw per-token costs, their raw
sum, then each of the three values independently rounded with toFixed(6). -/
def calculateTokenCost (inputTokens outputTokens : ℚ) (model : ModelName) : TokenCost :=
  let modelConfig := MODEL_CONFIG model
  let inputCost := inputTokens / 1000 * modelConfig.inputCostPer1K
  let outputCost := outputTokens / 1000 * modelConfig.outputCostPer1K
  let totalCost := inputCost + outputCost
  { inputCost := toFixedQ 6 inputCost
    outputCost := toFixedQ 6 outputCost
    totalCost := toFixedQ 6 totalCost }

/-- Return value of calculateImpact in src/lib/impact.ts. -/
structure ImpactCalculation where
  inputCost : ℚ
  outputCost : ℚ
  totalCost : ℚ
  donation : ℚ
  trees : ℚ
deriving DecidableEq, Repr

/-- The error raised by the zod schemas of src/lib/impact.ts
(tokenUsageSchema and treeCountSchema both require min(0)). -/
inductive CalcError
  | validationError
deriving DecidableEq, Repr

/-- The successful branch of calculateImpact from src/lib/impact.ts,
factored out so that statements can name the returned record: costs come
from calculateTokenCost (already rounded), donation = totalCost *
DONATION_RATE rounded with toFixed(6), and trees = (unrounded donation) *
TREES_PER_POUND rounded with toFixed(8). -/
def impactRecord (inputTokens outputTokens : ℚ) (model : ModelName) :
    ImpactCalculation :=
  let c := calculateTokenCost inputTokens outputTokens model
  let donation := c.totalCost * IMPACT_CONFIG.DONATION_RATE
  let treesPlanted := donation * IMPACT_CONFIG.TREES_PER_POUND
  { inputCost := c.inputCost
    outputCost := c.outputCost
    totalCost := c.totalCost
    donation := toFixedQ 6 donation
    trees := toFixedQ 8 treesPlanted }

/-- calculateImpact from src/lib/impact.ts: tokenUsageSchema.parse throws
on a negative token count; otherwise the impactRecord figures are
returned. -/
def calculateImpact (inputTokens outputTokens : ℚ) (model : ModelName) :
    Except CalcError ImpactCalculation :=
  if inputTokens < 0 ∨ outputTokens < 0 then Except.error CalcError.validationError
  else Except.ok (impactRecord inputTokens outputTokens model)

/-- One entry of MILESTONES in src/lib/impact.ts. The source entries also
carry display strings (message, description, icon); no claim mentions them,
so only the threshold field is modelled. -/
structure Milestone where
  trees : ℤ
deriving DecidableEq, Repr

/-- MILESTONES from src/lib/impact.ts: thresholds 1, 5, 25, 100, 500, 1000. -/
def MILESTONES : List Milestone :=
  [⟨1⟩, ⟨5⟩, ⟨25⟩, ⟨100⟩, ⟨500⟩, ⟨1000⟩]

/-- The threshold values of MILESTONES. -/
def milestoneValues : List ℤ :=
  MILESTONES.map Milestone.trees

/-- checkMilestone from src/lib/impact.ts: treeCountSchema.parse throws on a
negative input; otherwise the first milestone m of MILESTONES (in list order)
with floor(previousTrees) < m.trees and floor(newTrees) >= m.trees is
returned, none when there is no such milestone. -/
def checkMilestone (previousTrees newTrees : ℚ) :
    Except CalcError (Option Milestone) :=
  if previousTrees < 0 ∨ newTrees < 0 then Except.error CalcError.validationError
  else
    Except.ok (MILESTONES.find? (fun m =>
      decide (Int.floor previousTrees < m.trees) &&
        decide (Int.floor newTrees ≥ m.trees)))

/-- A row of the queries table (one UsageEvent), as inserted by
saveQueryToDatabase in route.ts and by recordQuery in database.ts. -/
structure QueryRow where
  user_id : Str
  session_id : Str
  user_message : Str
  assistant_message : Str
  input_tokens : ℤ
  output_tokens : ℤ
  input_cost : ℚ
  output_cost : ℚ
  total_cost : ℚ
  donation_amount : ℚ
  trees_added : ℚ
  model_used : ModelName
deriving DecidableEq, Repr

/-- The impact-tracking columns of a user_profiles row (the UserAggregate). -/
structure UserProfile where
  total_queries : ℤ
  total_input_tokens : ℤ
  total_output_tokens : ℤ
  total_cost : ℚ
  total_donated : ℚ
  trees_planted : ℚ
deriving DecidableEq, Repr

/-- The stats columns of a chat_sessions row (the SessionAggregate). -/
structure ChatSessionRow where
  message_count : ℤ
  total_tokens : ℤ
  session_cost : ℚ
  trees_from_session : ℚ
deriving DecidableEq, Repr

/-- The global_stats singleton row (the GlobalAggregate). -/
structure GlobalStats where
  total_users : ℤ
  total_queries : ℤ
  total_trees : ℚ
  total_donated : ℚ
  trees_this_week : ℚ
deriving DecidableEq, Repr

/-- The store state relevant to the claims, projected to one fixed user and
one fixed session (the operations under verification touch no other rows):
the queries of that user in creation order, the user profile row, the
session row, the global_stats singleton, and the milestone_trees values of
the user_milestones rows of that user, in insertion order. -/
structure DBState where
  queries : List QueryRow
  profile : UserProfile
  session : ChatSessionRow
  global : GlobalStats
  milestones : List ℤ
deriving DecidableEq, Repr

/-- Labels for the store writes an operation performs, in order, used to
state the write-ordering part of the ledger claims. -/
inductive WriteTarget
  | eventTable
  | sessionAgg
  | userAgg
  | globalAgg
deriving DecidableEq, Repr

/-- The first UPDATE of the update_user_stats trigger (database schema SQL):
user_profiles advanced by store-side increments with the figures of the
inserted row NEW. -/
def triggerUpdateUserProfiles (NEW : QueryRow) (p : UserProfile) : UserProfile :=
  { total_queries := p.total_queries + 1
    total_input_tokens := p.total_input_tokens + NEW.input_tokens
    total_output_tokens := p.total_output_tokens + NEW.output_tokens
    total_cost := p.total_cost + NEW.total_cost
    total_donated := p.total_donated + NEW.donation_amount
    trees_planted := p.trees_planted + NEW.trees_added }

/-- The second UPDATE of the update_user_stats trigger: chat_sessions
advanced by store-side increments. -/
def triggerUpdateChatSessions (NEW : QueryRow) (s : ChatSessionRow) : ChatSessionRow :=
  { message_count := s.message_count + 1
    total_tokens := s.total_tokens + NEW.input_tokens + NEW.output_tokens
    session_cost := s.session_cost + NEW.total_cost
    trees_from_session := s.trees_from_session + NEW.trees_added }

/-- The third UPDATE of the update_user_stats trigger: global_stats advanced
by store-side increments (total_users and trees_this_week untouched). -/
def triggerUpdateGlobalStats (NEW : QueryRow) (g : GlobalStats) : GlobalStats :=
  { g with
    total_queries := g.total_queries + 1
    total_trees := g.total_trees + NEW.trees_added
    total_donated := g.total_donated + NEW.donation_amount }

/-- update_user_stats from the database schema SQL: the AFTER INSERT ON
queries trigger body, performing its three UPDATEs in source order
user_profiles, then chat_sessions, then global_stats. -/
def update_user_stats (NEW : QueryRow) (st : DBState) : DBState :=
  let st1 := { st with profile := triggerUpdateUserProfiles NEW st.profile }
  let st2 := { st1 with session := triggerUpdateChatSessions NEW st1.session }
  { st2 with global := triggerUpdateGlobalStats NEW st2.global }

/-- A supabase INSERT into the queries table: the row is appended and the
AFTER INSERT trigger update_user_stats runs within the same statement.
The second component lists the writes in order: the event row, then the
three trigger increments (user, session, global). -/
def insertQueryRow (row : QueryRow) (st : DBState) : DBState × List WriteTarget :=
  (update_user_stats row { st with queries := st.queries ++ [row] },
   [WriteTarget.eventTable, WriteTarget.userAgg, WriteTarget.sessionAgg,
    WriteTarget.globalAgg])

/-- The UPDATE half of updateUserProfile in route.ts: writes back
readProfile plus the impact figures. readProfile is the value the preceding
SELECT returned; this is an application-level read-compute-write, not a
store-side increment. -/
def updateUserProfileWrite (readProfile : UserProfile)
    (impact : ImpactCalculation) (inputTokens outputTokens : ℤ)
    (st : DBState) : DBState :=
  { st with profile :=
    { total_queries := readProfile.total_queries + 1
      total_input_tokens := readProfile.total_input_tokens + inputTokens
      total_output_tokens := readProfile.total_output_tokens + outputTokens
      total_cost := readProfile.total_cost + impact.totalCost
      total_donated := readProfile.total_donated + impact.donation
      trees_planted := readProfile.trees_planted + impact.trees } }

/-- updateUserProfile from route.ts (lines 104-132): SELECT the current
profile, then UPDATE it to the read value plus the impact figures. -/
def updateUserProfile (impact : ImpactCalculation)
    (inputTokens outputTokens : ℤ) (st : DBState) : DBState :=
  updateUserProfileWrite st.profile impact inputTokens outputTokens st

/-- saveQueryToDatabase from route.ts (lines 58-102): INSERT the event row
into queries (which fires the update_user_stats trigger), then run
updateUserProfile. The write trace therefore ends with a second userAgg
write. -/
def saveQueryToDatabase (userId sessionId userMessage assistantResponse : Str)
    (inputTokens outputTokens : ℤ) (model : ModelName)
    (impact : ImpactCalculation) (st : DBState) : DBState × List WriteTarget :=
  let row : QueryRow :=
    { user_id := userId
      session_id := sessionId
      user_message := userMessage
      assistant_message := assistantResponse
      input_tokens := inputTokens
      output_tokens := outputTokens
      input_cost := impact.inputCost
      output_cost := impact.outputCost
      total_cost := impact.totalCost
      donation_amount := impact.donation
      trees_added := impact.trees
      model_used := model }
  let r := insertQueryRow row st
  (updateUserProfile impact inputTokens outputTokens r.1,
   r.2 ++ [WriteTarget.userAgg])

/-- Number of maximal runs of non-whitespace characters in a text;
the Boolean argument records whether the previous character belonged to a
run. -/
def wordRunCount : Str → Bool → ℕ
  | [], _ => 0
  | c :: rest, inWord =>
    if c.isWhitespace then wordRunCount rest false
    else (if inWord then 0 else 1) + wordRunCount rest true

/-- Number of fields produced by the JavaScript text.split on one-or-more
whitespace: for nonempty text, the number of maximal non-whitespace runs,
plus one empty leading field when the text starts with whitespace and one
empty trailing field when it ends with whitespace; the empty string yields
a single empty field. -/
def jsSplitWhitespaceLen (text : Str) : ℕ :=
  match text with
  | [] => 1
  | c :: _ =>
    wordRunCount text false
      + (if c.isWhitespace then 1 else 0)
      + (if ((text.getLast?).map Char.isWhitespace).getD false then 1 else 0)

/-- The JavaScript String.prototype.trim: whitespace removed from both
ends. -/
def jsTrim (text : Str) : Str :=
  ((text.dropWhile Char.isWhitespace).reverse.dropWhile Char.isWhitespace).reverse

/-- estimateTokens from route.ts (lines 43-55): words = split on whitespace,
chars = text.length; ceil(words * 0.75) when words > 20, else
ceil(chars / 4). A heuristic estimator: the model plays no part. -/
def estimateTokens (text : Str) : ℤ :=
  let words : ℤ := jsSplitWhitespaceLen text
  let chars : ℤ := text.length
  if words > 20 then Int.ceil ((words : ℚ) * (75 / 100 : ℚ))
  else Int.ceil ((chars : ℚ) / 4)

/-- The fallback text route.ts substitutes for empty completion content. -/
def noResponseFallback : Str :=
  ['S', 'o', 'r', 'r', 'y', ',', ' ', 'n', 'o', ' ', 'r', 'e', 's', 'p',
   'o', 'n', 's', 'e', ' ', 'g', 'e', 'n', 'e', 'r', 'a', 't', 'e', 'd', '.']

/-- Modelled from the spec: the naive character/4 token approximation that
section 4.1 forbids for recorded events (for comparison against what the
route actually records). -/
def naiveCharApprox (text : Str) : ℤ := Int.ceil ((text.length : ℚ) / 4)

/-- The request body of POST /api/chat after JSON parsing. -/
structure ChatRequest where
  message : Str
  model : ModelName
  sessionId : Str
  userId : Str
deriving DecidableEq, Repr

/-- Errors of the POST handler: badRequest for validateRequest throws
(HTTP 400 branch), serverError for everything else the catch block turns
into an error response. -/
inductive RouteError
  | badRequest
  | serverError
deriving DecidableEq, Repr

/-- validateRequest from route.ts (lines 18-40): message must be present,
at most 1000 characters; userId and sessionId must be nonempty; the
returned message is trimmed. -/
def validateRequest (req : ChatRequest) : Except RouteError ChatRequest :=
  if req.message = [] then Except.error RouteError.badRequest
  else if 1000 < req.message.length then Except.error RouteError.badRequest
  else if req.userId = [] then Except.error RouteError.badRequest
  else if req.sessionId = [] then Except.error RouteError.badRequest
  else Except.ok { req with message := jsTrim req.message }

/-- Ways the awaited OpenAI completion can fail to return output: an API
error or timeout rejects the promise (the catch block answers with an error
response and nothing after the await runs), and a cancelled request never
resumes the handler at all; in each case the code after the await, including
every database write, is not executed. -/
inductive CompletionFailure
  | apiError
  | timeout
  | cancelled
deriving DecidableEq, Repr

/-- Outcome of the external AI completion call, a parameter of the handler
model (the completion service is an external collaborator). -/
inductive CompletionOutcome
  | ok (text : Str)
  | failure (f : CompletionFailure)
deriving DecidableEq, Repr

/-- The successful JSON response body of POST /api/chat (fields the claims
mention). -/
structure ChatResponse where
  response : Str
  treesAdded : ℚ
  inputTokens : ℤ
  outputTokens : ℤ
  totalCost : ℚ
  donation : ℚ
deriving DecidableEq, Repr

/-- POST from route.ts (lines 134-201): validate the request, await the
completion, fall back to a fixed string on empty content, estimate both
token counts with estimateTokens, run calculateImpact (its zod throw is
caught by the catch block), then saveQueryToDatabase, and answer with the
impact figures. Returns the final store state and the response. -/
def POST (req : ChatRequest) (completion : CompletionOutcome) (st : DBState) :
    DBState × Except RouteError ChatResponse :=
  match validateRequest req with
  | Except.error e => (st, Except.error e)
  | Except.ok vreq =>
    match completion with
    | CompletionOutcome.failure _ => (st, Except.error RouteError.serverError)
    | CompletionOutcome.ok text =>
      let responseContent := if text = [] then noResponseFallback else text
      let inputTokens := estimateTokens vreq.message
      let outputTokens := estimateTokens responseContent
      match calculateImpact (inputTokens : ℚ) (outputTokens : ℚ) vreq.model with
      | Except.error _ => (st, Except.error RouteError.serverError)
      | Except.ok impact =>
        let r := saveQueryToDatabase vreq.userId vreq.sessionId vreq.message
          responseContent inputTokens outputTokens vreq.model impact st
        (r.1, Except.ok
          { response := responseContent
            treesAdded := impact.trees
            inputTokens := inputTokens
            outputTokens := outputTokens
            totalCost := impact.totalCost
            donation := impact.donation })

/-- checkUserMilestones from database.ts (lines 219-250): read the profile,
read the most recent query row, set previousTrees to trees_planted minus
the trees_added of that row (0 when there is none), run checkMilestone on
(previousTrees, trees_planted), and INSERT the single returned milestone;
the UNIQUE(user_id, milestone_trees) constraint makes the INSERT of an
already-recorded threshold fail, and the code ignores that error. A zod
throw from checkMilestone rejects the promise, which every caller catches,
leaving the state unchanged. -/
def checkUserMilestones (st : DBState) : DBState :=
  let lastTrees := ((st.queries.getLast?).map QueryRow.trees_added).getD 0
  let previousTrees := st.profile.trees_planted - lastTrees
  match checkMilestone previousTrees st.profile.trees_planted with
  | Except.error _ => st
  | Except.ok none => st
  | Except.ok (some m) =>
    if m.trees ∈ st.milestones then st
    else { st with milestones := st.milestones ++ [m.trees] }

/-- recordQuery from database.ts (lines 96-152): calculateImpact first (a
zod throw surfaces before any write), then INSERT the event row (firing the
update_user_stats trigger), then the fire-and-forget checkUserMilestones. -/
def recordQuery (userId sessionId userMessage assistantMessage : Str)
    (inputTokens outputTokens : ℤ) (model : ModelName) (st : DBState) :
    DBState × Except CalcError QueryRow :=
  match calculateImpact (inputTokens : ℚ) (outputTokens : ℚ) model with
  | Except.error e => (st, Except.error e)
  | Except.ok impact =>
    let row : QueryRow :=
      { user_id := userId
        session_id := sessionId
        user_message := userMessage
        assistant_message := assistantMessage
        input_tokens := inputTokens
        output_tokens := outputTokens
        input_cost := impact.inputCost
        output_cost := impact.outputCost
        total_cost := impact.totalCost
        donation_amount := impact.donation
        trees_added := impact.trees
        model_used := model }
    let r := insertQueryRow row st
    (checkUserMilestones r.1, Except.ok row)

/-- check_milestones from the database schema SQL: for every threshold of
the fixed array with current trees_planted at or above it, INSERT the
(user, threshold) milestone with ON CONFLICT DO NOTHING. -/
def check_milestones (st : DBState) : DBState :=
  milestoneValues.foldl
    (fun s (v : ℤ) =>
      if st.profile.trees_planted ≥ (v : ℚ) then
        if v ∈ s.milestones then s
        else { s with milestones := s.milestones ++ [v] }
      else s)
    st

/-- The user-visible toast notices of ChatInterface.tsx that the optimistic
tree-count path can emit. -/
inductive Toast
  | treesPlantedSuccess
  | syncFailedWarning
deriving DecidableEq, Repr

/-- Client-side state of ChatInterface: the displayed tree total and the
toasts shown so far, in order. -/
structure ClientState where
  totalTrees : ℚ
  toasts : List Toast
deriving DecidableEq, Repr

/-- Outcome of the authoritative user_profiles fetch issued by
refreshTreeCount. -/
inductive FetchOutcome
  | ok (trees_planted : ℚ)
  | failed
deriving DecidableEq, Repr

/-- refreshTreeCount from ChatInterface.tsx (lines 94-113): on success set
totalTrees from the database; on a fetch error or a thrown exception only
log to the console (the internal try/catch swallows everything, with the
comment that no toast is shown for this background operation). The Boolean
result records whether the call threw to its caller: it never does. -/
def refreshTreeCountRun (fetch : FetchOutcome) (cs : ClientState) :
    ClientState × Bool :=
  match fetch with
  | FetchOutcome.ok t => ({ cs with totalTrees := t }, false)
  | FetchOutcome.failed => (cs, false)

/-- The optimistic tree-count update and delayed sync of handleSend in
ChatInterface.tsx (lines 268-295): when treesAdded > 0, remember
previousTreeCount, add treesAdded to the displayed total, toast a success
notice when treesAdded is at least 0.001, then (in a setTimeout) await
refreshTreeCount; only if that await throws does the catch restore
previousTreeCount and toast a sync-failure warning. -/
def applyTreesAndSync (treesAdded : ℚ) (fetch : FetchOutcome)
    (cs : ClientState) : ClientState :=
  if 0 < treesAdded then
    let previousTreeCount := cs.totalTrees
    let csOpt : ClientState :=
      { totalTrees := cs.totalTrees + treesAdded
        toasts := cs.toasts ++
          (if 1 / 1000 ≤ treesAdded then [Toast.treesPlantedSuccess] else []) }
    let r := refreshTreeCountRun fetch csOpt
    if r.2 then
      { r.1 with
        totalTrees := previousTreeCount
        toasts := r.1.toasts ++ [Toast.syncFailedWarning] }
    else r.1
  else cs

/-! Concrete values used by witnesses and counterexamples. -/

/-- An empty store state: no events, zeroed aggregates, no milestones. -/
def dbState0 : DBState :=
  { queries := []
    profile := { total_queries := 0, total_input_tokens := 0, total_output_tokens := 0,
                 total_cost := 0, total_donated := 0, trees_planted := 0 }
    session := { message_count := 0, total_tokens := 0, session_cost := 0,
                 trees_from_session := 0 }
    global := { total_users := 0, total_queries := 0, total_trees := 0,
                total_donated := 0, trees_this_week := 0 }
    milestones := [] }

def uid0 : Str := ['u']

def sid0 : Str := ['s']

def umsg0 : Str := ['m']

def amsg0 : Str := ['a']

def msgHello : Str := ['h', 'e', 'l', 'l', 'o']

def okText : Str := ['o', 'k']

/-- The impact figures of the example event of the claims: 100 input and
200 output tokens on gpt-4o-mini. -/
def impactEx : ImpactCalculation :=
  { inputCost := 15 / 1000000
    outputCost := 120 / 1000000
    totalCost := 135 / 1000000
    donation := 54 / 1000000
    trees := 135 / 1000000 }

/-- The query row saveQueryToDatabase and recordQuery build from the call
data and an impact record. -/
def mkQueryRow (userId sessionId userMessage assistantMessage : Str)
    (inputTokens outputTokens : ℤ) (model : ModelName)
    (impact : ImpactCalculation) : QueryRow :=
  { user_id := userId
    session_id := sessionId
    user_message := userMessage
    assistant_message := assistantMessage
    input_tokens := inputTokens
    output_tokens := outputTokens
    input_cost := impact.inputCost
    output_cost := impact.outputCost
    total_cost := impact.totalCost
    donation_amount := impact.donation
    trees_added := impact.trees
    model_used := model }

/-- A concrete request: message "hello" on gpt-4o-mini. -/
def req0 : ChatRequest :=
  { message := msgHello
    model := ModelName.gpt4oMini
    sessionId := sid0
    userId := uid0 }

/-- Store state of the C5 failing input: the most recent event carried the
user from 0.9 to 6.2 trees (trees_added 5.3); no milestone recorded yet. -/
def burstState : DBState :=
  { dbState0 with
    queries := [{ mkQueryRow uid0 sid0 umsg0 amsg0 100 200 ModelName.gpt4 impactEx
                  with trees_added := 53 / 10 }]
    profile := { dbState0.profile with trees_planted := 31 / 5 } }

/-! Helper lemmas. -/

/-- calculateImpact succeeds on non-negative token counts with the
impactRecord figures. -/
theorem calculateImpact_ok_eq (i o : ℚ) (m : ModelName)
    (hi : 0 ≤ i) (ho : 0 ≤ o) :
    calculateImpact i o m = Except.ok (impactRecord i o m) := by
  have hneg : ¬ (i < 0 ∨ o < 0) := by push_neg; exact ⟨hi, ho⟩
  unfold calculateImpact
  rw [if_neg hneg]

/-- estimateTokens never returns a negative count. -/
theorem estimateTokens_nonneg (text : Str) : 0 ≤ estimateTokens text := by
  unfold estimateTokens
  dsimp only
  split
  · apply Int.ceil_nonneg
    positivity
  · apply Int.ceil_nonneg
    positivity

/-- Rounding to 8 decimals is the identity on a value already rounded to 6
decimals. -/
theorem toFixedQ_eight_of_six (x : ℚ) : toFixedQ 8 (toFixedQ 6 x) = toFixedQ 6 x := by
  have hhalf : Int.floor ((1 : ℚ) / 2) = 0 := by
    rw [Int.floor_eq_zero_iff, Set.mem_Ico]
    constructor <;> norm_num
  unfold toFixedQ
  have h1 : ((Int.floor (x * 10 ^ 6 + 1 / 2) : ℚ) / 10 ^ 6) * 10 ^ 8 + 1 / 2
      = ((Int.floor (x * 10 ^ 6 + 1 / 2) * 100 : ℤ) : ℚ) + 1 / 2 := by
    push_cast
    ring
  rw [h1, Int.floor_int_add, hhalf, add_zero]
  push_cast
  field_simp
  ring

/-- With a valid request and a completion that returned text, POST records
exactly one event row, built from the trimmed message, the (possibly
fallback) response text, the two estimateTokens counts and the
impactRecord figures. -/
theorem post_ok_queries (req : ChatRequest) (text : Str) (st : DBState)
    (h1 : ¬ req.message = []) (h2 : req.message.length ≤ 1000)
    (h3 : ¬ req.userId = []) (h4 : ¬ req.sessionId = []) :
    (POST req (CompletionOutcome.ok text) st).1.queries = st.queries ++
      [mkQueryRow req.userId req.sessionId (jsTrim req.message)
        (if text = [] then noResponseFallback else text)
        (estimateTokens (jsTrim req.message))
        (estimateTokens (if text = [] then noResponseFallback else text))
        req.model
        (impactRecord ((estimateTokens (jsTrim req.message) : ℤ) : ℚ)
          ((estimateTokens (if text = [] then noResponseFallback else text) : ℤ) : ℚ)
          req.model)] := by
  have hv : validateRequest req = Except.ok { req with message := jsTrim req.message } := by
    unfold validateRequest
    rw [if_neg h1, if_neg (not_lt.mpr h2), if_neg h3, if_neg h4]
  have himp := calculateImpact_ok_eq
    ((estimateTokens (jsTrim req.message) : ℤ) : ℚ)
    ((estimateTokens (if text = [] then noResponseFallback else text) : ℤ) : ℚ)
    req.model
    (by exact_mod_cast estimateTokens_nonneg (jsTrim req.message))
    (by exact_mod_cast estimateTokens_nonneg (if text = [] then noResponseFallback else text))
  simp only [POST, hv, himp, saveQueryToDatabase, insertQueryRow, update_user_stats,
    updateUserProfile, updateUserProfileWrite, mkQueryRow]

/-- estimateTokens on the five-character single word msgHello takes the
chars/4 branch and yields ceil(5/4) = 2. -/
theorem estimateTokens_msgHello : estimateTokens msgHello = 2 := by
  have hws : jsSplitWhitespaceLen msgHello = 1 := by decide
  have hlen : msgHello.length = 5 := by decide
  unfold estimateTokens
  dsimp only
  rw [hws, hlen]
  norm_num
  rw [Int.ceil_eq_iff]
  constructor <;> norm_num

/-- estimateTokens on the two-character response okText yields
ceil(2/4) = 1. -/
theorem estimateTokens_okText : estimateTokens okText = 1 := by
  have hws : jsSplitWhitespaceLen okText = 1 := by decide
  have hlen : okText.length = 2 := by decide
  unfold estimateTokens
  dsimp only
  rw [hws, hlen]
  norm_num
  rw [Int.ceil_eq_iff]
  constructor <;> norm_num

/-! Claims. -/

/-- C1 (amended): for all non-negative token counts and every model,
calculateImpact returns inputCost and outputCost equal to tokens/1000 times
the per-1K rate, each rounded to 6 decimals; totalCost equal to the sum of
the two UNrounded costs rounded to 6 decimals (which can differ from
inputCost + outputCost); donation equal to the rounded totalCost times
DONATION_RATE, rounded to 6 decimals; and trees equal to the rounded
totalCost times DONATION_RATE times TREES_PER_POUND (the unrounded
donation), rounded to 8 decimals. The concrete example of the claim holds
exactly: 100 input and 200 output tokens at rates 0.00015/0.0006 per 1K
give inputCost 0.000015, outputCost 0.00012, totalCost 0.000135, donation
0.000054 and trees 0.000135. -/
theorem calculateImpact_amended_spec (i o : ℚ) (m : ModelName)
    (hi : 0 ≤ i) (ho : 0 ≤ o) :
    calculateImpact i o m = Except.ok
      { inputCost := toFixedQ 6 (i / 1000 * (MODEL_CONFIG m).inputCostPer1K)
        outputCost := toFixedQ 6 (o / 1000 * (MODEL_CONFIG m).outputCostPer1K)
        totalCost := toFixedQ 6 (i / 1000 * (MODEL_CONFIG m).inputCostPer1K
          + o / 1000 * (MODEL_CONFIG m).outputCostPer1K)
        donation := toFixedQ 6 (toFixedQ 6 (i / 1000 * (MODEL_CONFIG m).inputCostPer1K
          + o / 1000 * (MODEL_CONFIG m).outputCostPer1K) * IMPACT_CONFIG.DONATION_RATE)
        trees := toFixedQ 8 (toFixedQ 6 (i / 1000 * (MODEL_CONFIG m).inputCostPer1K
          + o / 1000 * (MODEL_CONFIG m).outputCostPer1K) * IMPACT_CONFIG.DONATION_RATE
          * IMPACT_CONFIG.TREES_PER_POUND) }
    ∧ calculateImpact 100 200 ModelName.gpt4oMini = Except.ok
      { inputCost := 15 / 1000000
        outputCost := 120 / 1000000
        totalCost := 135 / 1000000
        donation := 54 / 1000000
        trees := 135 / 1000000 } := by
  constructor
  · have hneg : ¬ (i < 0 ∨ o < 0) := by push_neg; exact ⟨hi, ho⟩
    unfold calculateImpact
    rw [if_neg hneg]
    rfl
  · unfold calculateImpact impactRecord calculateTokenCost toFixedQ MODEL_CONFIG IMPACT_CONFIG
    norm_num

/-- Witness for C1, instantiated at the example figures of the claim. -/
theorem calculateImpact_amended_spec_witness :
    (calculateImpact 100 200 ModelName.gpt4oMini = Except.ok
      { inputCost := toFixedQ 6 ((100 : ℚ) / 1000 * (MODEL_CONFIG ModelName.gpt4oMini).inputCostPer1K)
        outputCost := toFixedQ 6 ((200 : ℚ) / 1000 * (MODEL_CONFIG ModelName.gpt4oMini).outputCostPer1K)
        totalCost := toFixedQ 6 ((100 : ℚ) / 1000 * (MODEL_CONFIG ModelName.gpt4oMini).inputCostPer1K
          + (200 : ℚ) / 1000 * (MODEL_CONFIG ModelName.gpt4oMini).outputCostPer1K)
        donation := toFixedQ 6 (toFixedQ 6 ((100 : ℚ) / 1000 * (MODEL_CONFIG ModelName.gpt4oMini).inputCostPer1K
          + (200 : ℚ) / 1000 * (MODEL_CONFIG ModelName.gpt4oMini).outputCostPer1K) * IMPACT_CONFIG.DONATION_RATE)
        trees := toFixedQ 8 (toFixedQ 6 ((100 : ℚ) / 1000 * (MODEL_CONFIG ModelName.gpt4oMini).inputCostPer1K
          + (200 : ℚ) / 1000 * (MODEL_CONFIG ModelName.gpt4oMini).outputCostPer1K) * IMPACT_CONFIG.DONATION_RATE
          * IMPACT_CONFIG.TREES_PER_POUND) }
    ∧ calculateImpact 100 200 ModelName.gpt4oMini = Except.ok
      { inputCost := 15 / 1000000
        outputCost := 120 / 1000000
        totalCost := 135 / 1000000
        donation := 54 / 1000000
        trees := 135 / 1000000 }) :=
  calculateImpact_amended_spec 100 200 ModelName.gpt4oMini (by norm_num) (by norm_num)

/-- C1 counterexample: at 2 input and 4 output tokens on gpt-4o-mini the
returned totalCost (0.000003, the rounded raw sum) differs from
inputCost + outputCost (0 + 0.000002), so the claimed relation
totalCost = inputCost + outputCost fails on the rounded fields. -/
theorem calculateImpact_totalCost_not_sum :
    calculateImpact 2 4 ModelName.gpt4oMini = Except.ok
      { inputCost := 0
        outputCost := 2 / 1000000
        totalCost := 3 / 1000000
        donation := 1 / 1000000
        trees := 3 / 1000000 }
    ∧ (3 / 1000000 : ℚ) ≠ 0 + 2 / 1000000 := by
  constructor
  · unfold calculateImpact impactRecord calculateTokenCost toFixedQ MODEL_CONFIG IMPACT_CONFIG
    norm_num
  · norm_num

/-- C4: for non-negative inputs, checkMilestone returns some milestone m
only if its threshold is in the fixed list and floor(prev) < m.trees <=
floor(new); it returns some milestone whenever a listed threshold T
satisfies floor(prev) < T <= floor(new); and it returns none whenever
floor(prev) = floor(new). -/
theorem checkMilestone_threshold_iff (prev next : ℚ) (hp : 0 ≤ prev) (hn : 0 ≤ next) :
    (∀ m : Milestone, checkMilestone prev next = Except.ok (some m) →
       m.trees ∈ milestoneValues ∧ Int.floor prev < m.trees ∧ m.trees ≤ Int.floor next)
  ∧ ((∃ T ∈ milestoneValues, Int.floor prev < T ∧ T ≤ Int.floor next) →
       ∃ m : Milestone, checkMilestone prev next = Except.ok (some m))
  ∧ (Int.floor prev = Int.floor next → checkMilestone prev next = Except.ok none) := by
  have hneg : ¬ (prev < 0 ∨ next < 0) := by push_neg; exact ⟨hp, hn⟩
  unfold checkMilestone
  rw [if_neg hneg]
  refine ⟨?_, ?_, ?_⟩
  · intro m hm
    simp only [Except.ok.injEq] at hm
    have h1 := List.find?_some hm
    have h2 := List.mem_of_find?_eq_some hm
    simp only [Bool.and_eq_true, decide_eq_true_eq, ge_iff_le] at h1
    exact ⟨List.mem_map_of_mem Milestone.trees h2, h1.1, h1.2⟩
  · rintro ⟨T, hTmem, hT1, hT2⟩
    simp only [milestoneValues, List.mem_map] at hTmem
    obtain ⟨m, hmMem, hmT⟩ := hTmem
    rcases hfind : MILESTONES.find? (fun m =>
        decide (Int.floor prev < m.trees) && decide (Int.floor next ≥ m.trees)) with _ | m2
    · exfalso
      rw [List.find?_eq_none] at hfind
      have hcontra := hfind m hmMem
      simp only [Bool.and_eq_true, decide_eq_true_eq, ge_iff_le, not_and, not_le] at hcontra
      omega
    · exact ⟨m2, by rw [hfind]⟩
  · intro hfloor
    have hnone : MILESTONES.find? (fun m =>
        decide (Int.floor prev < m.trees) && decide (Int.floor next ≥ m.trees)) = none := by
      rw [List.find?_eq_none]
      intro m hm
      simp only [Bool.and_eq_true, decide_eq_true_eq, ge_iff_le, not_and, not_le]
      intro h1
      omega
    rw [hnone]

/-- Witness for C4 at prev = 0.5 and new = 1.2 (floors 0 and 1). -/
theorem checkMilestone_threshold_iff_witness :
    (∀ m : Milestone, checkMilestone (1 / 2) (6 / 5) = Except.ok (some m) →
       m.trees ∈ milestoneValues ∧ Int.floor ((1 : ℚ) / 2) < m.trees
         ∧ m.trees ≤ Int.floor ((6 : ℚ) / 5))
  ∧ ((∃ T ∈ milestoneValues, Int.floor ((1 : ℚ) / 2) < T ∧ T ≤ Int.floor ((6 : ℚ) / 5)) →
       ∃ m : Milestone, checkMilestone (1 / 2) (6 / 5) = Except.ok (some m))
  ∧ (Int.floor ((1 : ℚ) / 2) = Int.floor ((6 : ℚ) / 5) →
       checkMilestone (1 / 2) (6 / 5) = Except.ok none) :=
  checkMilestone_threshold_iff (1 / 2) (6 / 5) (by norm_num) (by norm_num)

/-- C8: a negative input or output token count makes calculateImpact raise
the zod validation error, and a recordQuery call with a negative token
count returns that error with the store state unchanged: no UsageEvent row
and no aggregate write. -/
theorem calculateImpact_rejects_negative (i o : ℚ) (m : ModelName)
    (uid sid um am : Str) (iz oz : ℤ) (mz : ModelName) (st : DBState)
    (h : i < 0 ∨ o < 0) (hz : iz < 0 ∨ oz < 0) :
    calculateImpact i o m = Except.error CalcError.validationError ∧
    recordQuery uid sid um am iz oz mz st
      = (st, Except.error CalcError.validationError) := by
  have hq : calculateImpact (iz : ℚ) (oz : ℚ) mz
      = Except.error CalcError.validationError := by
    unfold calculateImpact
    rw [if_pos]
    rcases hz with h1 | h1
    · exact Or.inl (by exact_mod_cast Int.cast_lt_zero.mpr h1)
    · exact Or.inr (by exact_mod_cast Int.cast_lt_zero.mpr h1)
  constructor
  · unfold calculateImpact
    rw [if_pos h]
  · unfold recordQuery
    rw [hq]

/-- Witness for C8 at input token count -1. -/
theorem calculateImpact_rejects_negative_witness :
    calculateImpact (-1) 0 ModelName.gpt4oMini = Except.error CalcError.validationError ∧
    recordQuery uid0 sid0 umsg0 amsg0 (-1) 0 ModelName.gpt4oMini dbState0
      = (dbState0, Except.error CalcError.validationError) :=
  calculateImpact_rejects_negative (-1) 0 ModelName.gpt4oMini uid0 sid0 umsg0 amsg0
    (-1) 0 ModelName.gpt4oMini dbState0 (Or.inl (by norm_num)) (Or.inl (by norm_num))

/-- C10: DONATION_RATE times TREES_PER_POUND equals 1, and for every
successful calculateImpact result the trees field equals the totalCost
field exactly (the 8-decimal rounding of trees is the identity on the
6-decimal-rounded totalCost), i.e. one tree is credited per currency unit
of total cost. -/
theorem trees_eq_totalCost (i o : ℚ) (m : ModelName) (r : ImpactCalculation)
    (hi : 0 ≤ i) (ho : 0 ≤ o) (h : calculateImpact i o m = Except.ok r) :
    IMPACT_CONFIG.DONATION_RATE * IMPACT_CONFIG.TREES_PER_POUND = 1 ∧
    r.trees = r.totalCost := by
  have hd : IMPACT_CONFIG.DONATION_RATE = 4 / 10 := rfl
  have ht : IMPACT_CONFIG.TREES_PER_POUND = 25 / 10 := rfl
  constructor
  · rw [hd, ht]; norm_num
  · have hneg : ¬ (i < 0 ∨ o < 0) := by push_neg; exact ⟨hi, ho⟩
    unfold calculateImpact at h
    rw [if_neg hneg] at h
    simp only [Except.ok.injEq] at h
    subst h
    show toFixedQ 8 ((calculateTokenCost i o m).totalCost * IMPACT_CONFIG.DONATION_RATE
      * IMPACT_CONFIG.TREES_PER_POUND) = (calculateTokenCost i o m).totalCost
    have harg : (calculateTokenCost i o m).totalCost * IMPACT_CONFIG.DONATION_RATE
        * IMPACT_CONFIG.TREES_PER_POUND = (calculateTokenCost i o m).totalCost := by
      rw [hd, ht]; ring
    rw [harg]
    show toFixedQ 8 (toFixedQ 6 (i / 1000 * (MODEL_CONFIG m).inputCostPer1K
      + o / 1000 * (MODEL_CONFIG m).outputCostPer1K))
      = toFixedQ 6 (i / 1000 * (MODEL_CONFIG m).inputCostPer1K
        + o / 1000 * (MODEL_CONFIG m).outputCostPer1K)
    exact toFixedQ_eight_of_six _

/-- C2 (amended): recording one usage event through route.ts persists the
UsageEvent row, then the AFTER INSERT trigger applies the event deltas once
each to the user, session and global aggregates (in that order), after
which the route applies the user delta a second time through its
read-compute-write updateUserProfile. Hence the session and global
aggregates advance by exactly the event figures, every user counter
advances by twice the event figures, and the write order is event, user,
session, global, user — not the claimed event, session, user, global. -/
theorem saveQuery_amended_effects
    (uid sid um am : Str) (iTok oTok : ℤ) (m : ModelName)
    (impact : ImpactCalculation) (st : DBState) :
    (saveQueryToDatabase uid sid um am iTok oTok m impact st).1.queries
        = st.queries ++ [mkQueryRow uid sid um am iTok oTok m impact]
  ∧ (saveQueryToDatabase uid sid um am iTok oTok m impact st).1.session
        = { message_count := st.session.message_count + 1
            total_tokens := st.session.total_tokens + iTok + oTok
            session_cost := st.session.session_cost + impact.totalCost
            trees_from_session := st.session.trees_from_session + impact.trees }
  ∧ (saveQueryToDatabase uid sid um am iTok oTok m impact st).1.global
        = { st.global with
            total_queries := st.global.total_queries + 1
            total_trees := st.global.total_trees + impact.trees
            total_donated := st.global.total_donated + impact.donation }
  ∧ (saveQueryToDatabase uid sid um am iTok oTok m impact st).1.profile
        = { total_queries := st.profile.total_queries + 1 + 1
            total_input_tokens := st.profile.total_input_tokens + iTok + iTok
            total_output_tokens := st.profile.total_output_tokens + oTok + oTok
            total_cost := st.profile.total_cost + impact.totalCost + impact.totalCost
            total_donated := st.profile.total_donated + impact.donation + impact.donation
            trees_planted := st.profile.trees_planted + impact.trees + impact.trees }
  ∧ (saveQueryToDatabase uid sid um am iTok oTok m impact st).2
        = [WriteTarget.eventTable, WriteTarget.userAgg, WriteTarget.sessionAgg,
           WriteTarget.globalAgg, WriteTarget.userAgg] :=
  ⟨rfl, rfl, rfl, rfl, rfl⟩

/-- C2 counterexample: one event with the example impact figures on the
empty store leaves the user counter total_queries at 2 rather than 1 and
trees_planted at 0.00027 rather than the event trees 0.000135 (the user
delta is applied twice), and the write trace is event, user, session,
global, user rather than the claimed event, session, user, global. -/
theorem saveQuery_double_user_delta :
    (saveQueryToDatabase uid0 sid0 umsg0 amsg0 100 200 ModelName.gpt4oMini
        impactEx dbState0).1.profile.total_queries = 2
  ∧ (2 : ℤ) ≠ 0 + 1
  ∧ (saveQueryToDatabase uid0 sid0 umsg0 amsg0 100 200 ModelName.gpt4oMini
        impactEx dbState0).1.profile.trees_planted = 27 / 100000
  ∧ (27 / 100000 : ℚ) ≠ 0 + 135 / 1000000
  ∧ (saveQueryToDatabase uid0 sid0 umsg0 amsg0 100 200 ModelName.gpt4oMini
        impactEx dbState0).2
      = [WriteTarget.eventTable, WriteTarget.userAgg, WriteTarget.sessionAgg,
         WriteTarget.globalAgg, WriteTarget.userAgg]
  ∧ [WriteTarget.eventTable, WriteTarget.userAgg, WriteTarget.sessionAgg,
     WriteTarget.globalAgg, WriteTarget.userAgg]
      ≠ [WriteTarget.eventTable, WriteTarget.sessionAgg, WriteTarget.userAgg,
         WriteTarget.globalAgg] := by
  refine ⟨rfl, by decide, ?_, by norm_num, rfl, by decide⟩
  show (0 : ℚ) + impactEx.trees + impactEx.trees = 27 / 100000
  norm_num [impactEx]

/-- C3 (amended): the store-side trigger increments alone are atomic and
commutative: folding the update_user_stats trigger over any list of event
rows advances trees_planted by exactly the sum of the event trees, and any
permutation of the events reaches the same final trees_planted. The route
additionally runs an application-level read-compute-write user update on
top of the trigger, which double-applies the user delta and defeats the
claimed no-lost-update property (see counterexample). -/
theorem trigger_increments_perm_sum (rows1 rows2 : List QueryRow) (st : DBState)
    (h : rows1.Perm rows2) :
    (rows1.foldl (fun s r => update_user_stats r s) st).profile.trees_planted
      = st.profile.trees_planted + ((rows1.map QueryRow.trees_added).sum)
  ∧ (rows1.foldl (fun s r => update_user_stats r s) st).profile.trees_planted
      = (rows2.foldl (fun s r => update_user_stats r s) st).profile.trees_planted := by
  have key : ∀ (l : List QueryRow) (s : DBState),
      (l.foldl (fun s r => update_user_stats r s) s).profile.trees_planted
        = s.profile.trees_planted + (l.map QueryRow.trees_added).sum := by
    intro l
    induction l with
    | nil => intro s; simp
    | cons a t ih =>
      intro s
      simp only [List.foldl_cons, List.map_cons, List.sum_cons]
      rw [ih]
      have hstep : (update_user_stats a s).profile.trees_planted
          = s.profile.trees_planted + a.trees_added := rfl
      rw [hstep]
      ring
  refine ⟨key rows1 st, ?_⟩
  rw [key rows1 st, key rows2 st, (h.map QueryRow.trees_added).sum_eq]

/-- Witness for C3 at a two-event permutation. -/
theorem trigger_increments_perm_sum_witness :
    ([mkQueryRow uid0 sid0 umsg0 amsg0 100 200 ModelName.gpt4oMini impactEx,
      mkQueryRow uid0 sid0 umsg0 amsg0 2 4 ModelName.gpt4oMini impactEx].foldl
        (fun s r => update_user_stats r s) dbState0).profile.trees_planted
      = dbState0.profile.trees_planted +
        (([mkQueryRow uid0 sid0 umsg0 amsg0 100 200 ModelName.gpt4oMini impactEx,
           mkQueryRow uid0 sid0 umsg0 amsg0 2 4 ModelName.gpt4oMini impactEx].map
            QueryRow.trees_added).sum)
  ∧ ([mkQueryRow uid0 sid0 umsg0 amsg0 100 200 ModelName.gpt4oMini impactEx,
      mkQueryRow uid0 sid0 umsg0 amsg0 2 4 ModelName.gpt4oMini impactEx].foldl
        (fun s r => update_user_stats r s) dbState0).profile.trees_planted
      = ([mkQueryRow uid0 sid0 umsg0 amsg0 2 4 ModelName.gpt4oMini impactEx,
          mkQueryRow uid0 sid0 umsg0 amsg0 100 200 ModelName.gpt4oMini impactEx].foldl
            (fun s r => update_user_stats r s) dbState0).profile.trees_planted :=
  trigger_increments_perm_sum
    [mkQueryRow uid0 sid0 umsg0 amsg0 100 200 ModelName.gpt4oMini impactEx,
     mkQueryRow uid0 sid0 umsg0 amsg0 2 4 ModelName.gpt4oMini impactEx]
    [mkQueryRow uid0 sid0 umsg0 amsg0 2 4 ModelName.gpt4oMini impactEx,
     mkQueryRow uid0 sid0 umsg0 amsg0 100 200 ModelName.gpt4oMini impactEx]
    dbState0
    (List.Perm.swap (mkQueryRow uid0 sid0 umsg0 amsg0 2 4 ModelName.gpt4oMini impactEx)
      (mkQueryRow uid0 sid0 umsg0 amsg0 100 200 ModelName.gpt4oMini impactEx) [])

/-- C3 counterexample: already for a single event recorded through the
route, the final trees_planted is twice the event trees (the atomic trigger
increment plus the manual read-compute-write update), so it does not equal
the sum of the event trees. -/
theorem recordUsage_not_sum_of_trees :
    (saveQueryToDatabase uid0 sid0 umsg0 amsg0 100 200 ModelName.gpt4oMini
        impactEx dbState0).1.profile.trees_planted = 27 / 100000
  ∧ ([impactEx.trees].sum) = 135 / 1000000
  ∧ (27 / 100000 : ℚ) ≠ 135 / 1000000 := by
  refine ⟨?_, by norm_num [impactEx], by norm_num⟩
  show (0 : ℚ) + impactEx.trees + impactEx.trees = 27 / 100000
  norm_num [impactEx]

/-- C7: when the completion call fails with an API error, times out, or the
request is cancelled before the completion returns, POST leaves the entire
store state unchanged (no UsageEvent row, no aggregate writes) and produces
no successful response. -/
theorem post_failure_leaves_state_unchanged (req : ChatRequest)
    (f : CompletionFailure) (st : DBState) :
    (POST req (CompletionOutcome.failure f) st).1 = st
  ∧ (POST req (CompletionOutcome.failure f) st).1.queries = st.queries
  ∧ ∀ resp : ChatResponse,
      (POST req (CompletionOutcome.failure f) st).2 ≠ Except.ok resp := by
  unfold POST
  rcases hv : validateRequest req with e | vreq
  · exact ⟨rfl, rfl, fun resp h => Except.noConfusion h⟩
  · exact ⟨rfl, rfl, fun resp h => Except.noConfusion h⟩

/-- Witness for C10 at the 100/200 token example on gpt-4o-mini. -/
theorem trees_eq_totalCost_witness :
    IMPACT_CONFIG.DONATION_RATE * IMPACT_CONFIG.TREES_PER_POUND = 1 ∧
    ({ inputCost := 15 / 1000000
       outputCost := 120 / 1000000
       totalCost := 135 / 1000000
       donation := 54 / 1000000
       trees := 135 / 1000000 } : ImpactCalculation).trees
      = ({ inputCost := 15 / 1000000
           outputCost := 120 / 1000000
           totalCost := 135 / 1000000
           donation := 54 / 1000000
           trees := 135 / 1000000 } : ImpactCalculation).totalCost :=
  trees_eq_totalCost 100 200 ModelName.gpt4oMini
    { inputCost := 15 / 1000000
      outputCost := 120 / 1000000
      totalCost := 135 / 1000000
      donation := 54 / 1000000
      trees := 135 / 1000000 }
    (by norm_num) (by norm_num)
    (by unfold calculateImpact impactRecord calculateTokenCost toFixedQ MODEL_CONFIG IMPACT_CONFIG
        norm_num)

/-- C6 (amended): every UsageEvent recorded by the active /api/chat route
stores token counts produced by the heuristic estimateTokens (word count
times 0.75 for more than 20 words, else characters/4) applied to the
trimmed message and the response text; the counts are identical for every
model (nothing model-aware is involved), and no configuration-error path
exists for token counting on this route. The tiktoken-based countTokens
with its TokenCountError lives only on the server-action path, which the
client UI does not call. -/
theorem post_records_heuristic_tokens (req : ChatRequest) (text : Str) (st : DBState)
    (h1 : ¬ req.message = []) (h2 : req.message.length ≤ 1000)
    (h3 : ¬ req.userId = []) (h4 : ¬ req.sessionId = []) :
    ∀ m : ModelName, ∃ row : QueryRow,
      (POST { req with model := m } (CompletionOutcome.ok text) st).1.queries
        = st.queries ++ [row]
      ∧ row.input_tokens = estimateTokens (jsTrim req.message)
      ∧ row.output_tokens
          = estimateTokens (if text = [] then noResponseFallback else text) := by
  intro m
  exact ⟨mkQueryRow req.userId req.sessionId (jsTrim req.message)
      (if text = [] then noResponseFallback else text)
      (estimateTokens (jsTrim req.message))
      (estimateTokens (if text = [] then noResponseFallback else text))
      m
      (impactRecord ((estimateTokens (jsTrim req.message) : ℤ) : ℚ)
        ((estimateTokens (if text = [] then noResponseFallback else text) : ℤ) : ℚ) m),
    post_ok_queries { req with model := m } text st h1 h2 h3 h4, rfl, rfl⟩

/-- Witness for C6 at the request req0 (message msgHello), response okText
and model gpt-4o-mini. -/
theorem post_records_heuristic_tokens_witness :
    ∃ row : QueryRow,
      (POST { req0 with model := ModelName.gpt4oMini }
          (CompletionOutcome.ok okText) dbState0).1.queries
        = dbState0.queries ++ [row]
      ∧ row.input_tokens = estimateTokens (jsTrim req0.message)
      ∧ row.output_tokens
          = estimateTokens (if okText = [] then noResponseFallback else okText) :=
  post_records_heuristic_tokens req0 okText dbState0 (by decide) (by decide)
    (by decide) (by decide) ModelName.gpt4oMini

/-- C6 counterexample: for the recorded event of the five-character message
msgHello, the stored input token count equals the naive characters/4
approximation (value 2) under every one of the three supported models, so
the stored counts are exactly the heuristic the claim rules out, and no
model-aware method is involved. -/
theorem recorded_tokens_naive_char_div4 :
    ((POST req0 (CompletionOutcome.ok okText) dbState0).1.queries.map
        QueryRow.input_tokens) = [naiveCharApprox msgHello]
  ∧ ((POST { req0 with model := ModelName.gpt4o } (CompletionOutcome.ok okText)
        dbState0).1.queries.map QueryRow.input_tokens) = [naiveCharApprox msgHello]
  ∧ ((POST { req0 with model := ModelName.gpt4 } (CompletionOutcome.ok okText)
        dbState0).1.queries.map QueryRow.input_tokens) = [naiveCharApprox msgHello]
  ∧ naiveCharApprox msgHello = 2 := by
  have htrim : jsTrim msgHello = msgHello := by decide
  have hnaive : naiveCharApprox msgHello = 2 := by
    unfold naiveCharApprox
    rw [show msgHello.length = 5 from by decide]
    rw [Int.ceil_eq_iff]
    constructor <;> norm_num
  have hq1 := post_ok_queries req0 okText dbState0 (by decide) (by decide)
    (by decide) (by decide)
  have hq2 := post_ok_queries { req0 with model := ModelName.gpt4o } okText dbState0
    (by decide) (by decide) (by decide) (by decide)
  have hq3 := post_ok_queries { req0 with model := ModelName.gpt4 } okText dbState0
    (by decide) (by decide) (by decide) (by decide)
  refine ⟨?_, ?_, ?_, hnaive⟩
  · rw [hq1]
    simp [mkQueryRow, dbState0, req0, htrim, estimateTokens_msgHello, hnaive]
  · rw [hq2]
    simp [mkQueryRow, dbState0, req0, htrim, estimateTokens_msgHello, hnaive]
  · rw [hq3]
    simp [mkQueryRow, dbState0, req0, htrim, estimateTokens_msgHello, hnaive]

/-- C9 failing input evaluated: after an optimistic update of +0.000135
trees on a displayed total of 0, a failed authoritative fetch leaves the
displayed total at the optimistic value 0.000135 — it does not revert to
the pre-update value 0 — and no user-visible notice is surfaced (the toast
list stays empty). The first conjunct shows why: refreshTreeCount swallows
every fetch error internally (console logging only) and never throws, so
the rollback catch in handleSend, which would restore the previous total
and toast a sync-failure warning, is unreachable. -/
theorem optimistic_rollback_dead :
    (∀ (fetch : FetchOutcome) (cs : ClientState),
        (refreshTreeCountRun fetch cs).2 = false)
  ∧ (applyTreesAndSync (135 / 1000000) FetchOutcome.failed
        { totalTrees := 0, toasts := [] }).totalTrees = 135 / 1000000
  ∧ (applyTreesAndSync (135 / 1000000) FetchOutcome.failed
        { totalTrees := 0, toasts := [] }).totalTrees ≠ 0
  ∧ (applyTreesAndSync (135 / 1000000) FetchOutcome.failed
        { totalTrees := 0, toasts := [] }).toasts = [] := by
  refine ⟨fun fetch cs => by cases fetch <;> rfl, ?_, ?_, ?_⟩
  all_goals norm_num [applyTreesAndSync, refreshTreeCountRun]

/-- C5 failing input evaluated: an event carried the user from 0.9 to 6.2
trees. The application-level milestone check (checkUserMilestones, run by
recordQuery after the insert) records only threshold 1 — the first match of
checkMilestone — although threshold 5 was also crossed and the cumulative
total 6.2 is at least 5; re-running the check reproduces the same state, so
threshold 5 is never recorded by this path, violating the claimed both-
thresholds behaviour. Duplicates are indeed never created (re-run is a
no-op), and the schema-level check_milestones function would record both
thresholds ([1, 5]) idempotently — but no application code invokes it. -/
theorem checkUserMilestones_burst_skips_five :
    (checkUserMilestones burstState).milestones = [1]
  ∧ (5 : ℤ) ∉ (checkUserMilestones burstState).milestones
  ∧ checkUserMilestones (checkUserMilestones burstState) = checkUserMilestones burstState
  ∧ (5 : ℚ) ≤ burstState.profile.trees_planted
  ∧ (check_milestones burstState).milestones = [1, 5] := by
  have hf0 : Int.floor ((9 : ℚ) / 10) = 0 := by norm_num
  have hf6 : Int.floor ((31 : ℚ) / 5) = 6 := by norm_num
  have hcm : checkMilestone ((9 : ℚ) / 10) ((31 : ℚ) / 5)
      = Except.ok (some (⟨1⟩ : Milestone)) := by
    unfold checkMilestone
    rw [if_neg (by norm_num)]
    congr 1
    show MILESTONES.find? _ = some ⟨1⟩
    unfold MILESTONES
    apply List.find?_cons_of_pos
    show (decide (Int.floor ((9 : ℚ) / 10) < (1 : ℤ))
      && decide (Int.floor ((31 : ℚ) / 5) ≥ (1 : ℤ))) = true
    rw [hf0, hf6]
    decide
  have hrun : checkUserMilestones burstState = { burstState with milestones := [1] } := by
    unfold checkUserMilestones
    norm_num [burstState, dbState0, mkQueryRow, impactEx]
    rw [hcm]
  have hrun2 : checkUserMilestones { burstState with milestones := [1] }
      = { burstState with milestones := [1] } := by
    unfold checkUserMilestones
    norm_num [burstState, dbState0, mkQueryRow, impactEx]
    rw [hcm]
    simp
  refine ⟨by rw [hrun], by rw [hrun]; decide, by rw [hrun]; exact hrun2,
    by norm_num [burstState, dbState0], ?_⟩
  norm_num [check_milestones, milestoneValues, MILESTONES, burstState, dbState0,
    mkQueryRow, impactEx, List.foldl]

end Cactai
